import Mathlib

/-!
Verification development for the AcademicChain employer-side credential
verifier (`src/pages/EmployerVerifier.tsx`).  The orchestrator
`runVerification` is embedded faithfully; the external collaborators
(signature verifier, canonicalizer, hasher, registry client) are oracle
parameters collected in `Env`, since only their interfaces are visible to
the orchestrator.  Each published React state update (`setStatus`,
`setSteps`) is recorded as an `Action`; the `await` suspension points at
the two network calls split the action stream into segments, which lets us
reason both about the sequence of published snapshots within one run and
about interleavings of two overlapping runs over the shared state.
-/

namespace AcademicChain

/-- Overall verification status, `type VerificationStatus` in the source. -/
inductive VStatus where
  | idle
  | verifying
  | valid
  | invalid
  | revoked
  | error
  deriving DecidableEq

/-- Status of a single verification step. -/
inductive StepStatus where
  | pending
  | success
  | failure
  | warning
  deriving DecidableEq

/-- The `VerificationStep` record of the source. -/
structure Step where
  name : String
  status : StepStatus
  message : String
  deriving DecidableEq

/-- Result object returned by `verifyVCSignature`. -/
structure SigResult where
  valid : Bool
  reason : String
  recoveredAddress : Option String
  deriving DecidableEq

/-- Parsed credential.  The orchestrator only reads `issuer`, detaches
`proof`, and hands the rest to the oracles, so the remaining content is an
opaque `subject` payload. -/
structure Credential where
  issuer : String
  subject : String
  proof : Option String
  deriving DecidableEq

/-- A credential after the destructuring `const (proof, ...vcWithoutProof)`
removed the `proof` field. -/
structure CredentialBody where
  issuer : String
  subject : String
  deriving DecidableEq

/-- The effect of `const (proof, ...vcWithoutProof) = parsedVc`. -/
def stripProof (c : Credential) : CredentialBody :=
  ⟨c.issuer, c.subject⟩

/-- External collaborators of the orchestrator (spec section 6): the
signature verifier, canonicalizer and hasher from `../utils/crypto` and the
registry client from `../services/contract`.  Each fallible call is
`Except`-valued; an `Except.error` models a thrown exception. -/
structure Env where
  verifyVCSignature : Credential → Except String SigResult
  canonicalizeVC : CredentialBody → Except String String
  computeCredentialHash : String → Except String String
  getController : String → Except String String
  isRevoked : String → Except String Bool

/-- External calls the orchestrator makes, in order. -/
inductive CallEvent where
  | getControllerCall (issuer : String)
  | isRevokedCall (fingerprint : String)
  deriving DecidableEq

/-- A published React state update: `setStatus` or `setSteps`. -/
inductive Action where
  | setStatus (s : VStatus)
  | setSteps (l : List Step)
  deriving DecidableEq

/-- Step recorded when `JSON.parse` throws. -/
def parseFailStep : Step :=
  ⟨"Parse JSON", .failure, "Input is not valid JSON."⟩

/-- Step recorded for the signature check. -/
def sigStep (sr : SigResult) : Step :=
  ⟨"Cryptographic Signature", if sr.valid then .success else .failure, sr.reason⟩

/-- Placeholder pushed before the `getController` call resolves. -/
def ctrlPendingStep : Step :=
  ⟨"Issuer DID Control", .pending, "Checking if issuer controls DID on-chain..."⟩

/-- Controller step when the on-chain controller matches the signer. -/
def ctrlMatchStep (onChainController : String) : Step :=
  ⟨"Issuer DID Control", .success,
    "On-chain controller (" ++ onChainController ++ ") matches the credential signer."⟩

/-- Controller step when the on-chain controller does not match the signer. -/
def ctrlMismatchStep (onChainController signer : String) : Step :=
  ⟨"Issuer DID Control", .warning,
    "On-chain controller (" ++ onChainController ++ ") does not match signer (" ++ signer
      ++ "). Credential may be valid but issuer DID is not registered or controller has changed."⟩

/-- Controller step when `getController` throws. -/
def ctrlFailStep : Step :=
  ⟨"Issuer DID Control", .warning,
    "Could not verify issuer DID controller on-chain. The DID may not be registered."⟩

/-- Placeholder pushed before the `isRevoked` call resolves. -/
def revPendingStep : Step :=
  ⟨"Revocation Status", .pending, "Checking on-chain revocation list..."⟩

/-- Revocation step when the credential is on the revocation list. -/
def revRevokedStep : Step :=
  ⟨"Revocation Status", .failure, "This credential has been revoked by the issuer."⟩

/-- Revocation step when the credential is not on the revocation list. -/
def revOkStep : Step :=
  ⟨"Revocation Status", .success, "Credential is not on the revocation list."⟩

/-- Revocation step when the revocation check threw an exception. -/
def revWarnStep (e : String) : Step :=
  ⟨"Revocation Status", .warning, "Could not check revocation status: " ++ e⟩

/-- Resolution of the controller check, lines 84-96 of the source.  A
missing `recoveredAddress` makes the JavaScript comparison
`onChainController.toLowerCase() === undefined` false, so it lands in the
mismatch branch with the string interpolation printing `undefined`. -/
def controllerStep (result : Except String String) (recovered : Option String) : Step :=
  match result with
  | .error _ => ctrlFailStep
  | .ok onChainController =>
    match recovered with
    | some signerAddress =>
      if onChainController.toLower = signerAddress.toLower then
        ctrlMatchStep onChainController
      else
        ctrlMismatchStep onChainController signerAddress
    | none => ctrlMismatchStep onChainController "undefined"

/-- Output of one call to `runVerification`: the published actions grouped
into segments separated by the `await` suspension points, the external
calls made, and the message of an exception that escaped uncaught. -/
structure RunOutput where
  segments : List (List Action)
  calls : List CallEvent
  uncaught : Option String
  deriving DecidableEq

/-- The verification orchestrator, lines 47-129 of the source.  `JSON.parse`
is represented by its outcome `parseResult` (`none` when it throws).  The
`setIsLoading` and `setVc` updates are presentation-only and not recorded. -/
def runVerification (env : Env) (parseResult : Option Credential) : RunOutput :=
  match parseResult with
  | none =>
    { segments := [[.setStatus .verifying, .setStatus .error, .setSteps [parseFailStep]]]
      calls := []
      uncaught := none }
  | some parsedVc =>
    match env.verifyVCSignature parsedVc with
    | .error e =>
      { segments := [[.setStatus .verifying]], calls := [], uncaught := some e }
    | .ok sigVerification =>
      let s1 := sigStep sigVerification
      if !sigVerification.valid then
        { segments := [[.setStatus .verifying, .setSteps [s1], .setStatus .invalid]]
          calls := []
          uncaught := none }
      else
        let seg0 : List Action :=
          [.setStatus .verifying, .setSteps [s1], .setSteps [s1, ctrlPendingStep]]
        let s2 := controllerStep (env.getController parsedVc.issuer)
          sigVerification.recoveredAddress
        let seg1head : List Action :=
          [.setSteps [s1, s2], .setSteps [s1, s2, revPendingStep]]
        match env.canonicalizeVC (stripProof parsedVc) with
        | .error e =>
          { segments := [seg0,
              seg1head ++ [.setSteps [s1, s2, revWarnStep e], .setStatus .valid]]
            calls := [.getControllerCall parsedVc.issuer]
            uncaught := none }
        | .ok canonicalVC =>
          match env.computeCredentialHash canonicalVC with
          | .error e =>
            { segments := [seg0,
                seg1head ++ [.setSteps [s1, s2, revWarnStep e], .setStatus .valid]]
              calls := [.getControllerCall parsedVc.issuer]
              uncaught := none }
          | .ok hash =>
            match env.isRevoked hash with
            | .error e =>
              { segments := [seg0, seg1head,
                  [.setSteps [s1, s2, revWarnStep e], .setStatus .valid]]
                calls := [.getControllerCall parsedVc.issuer, .isRevokedCall hash]
                uncaught := none }
            | .ok revoked =>
              if revoked then
                { segments := [seg0, seg1head,
                    [.setSteps [s1, s2, revRevokedStep], .setStatus .revoked]]
                  calls := [.getControllerCall parsedVc.issuer, .isRevokedCall hash]
                  uncaught := none }
              else
                { segments := [seg0, seg1head,
                    [.setSteps [s1, s2, revOkStep], .setStatus .valid]]
                  calls := [.getControllerCall parsedVc.issuer, .isRevokedCall hash]
                  uncaught := none }

/-- Flattened action stream of a run. -/
def RunOutput.actions (r : RunOutput) : List Action :=
  r.segments.flatten

/-- Step-log snapshots published by a list of actions, in order. -/
def snapshotsOfActions (as : List Action) : List (List Step) :=
  as.filterMap fun a =>
    match a with
    | .setSteps l => some l
    | _ => none

/-- Statuses published by a list of actions, in order. -/
def statusTraceOfActions (as : List Action) : List VStatus :=
  as.filterMap fun a =>
    match a with
    | .setStatus s => some s
    | _ => none

/-- Step-log snapshots published by a run, in order. -/
def RunOutput.snapshots (r : RunOutput) : List (List Step) :=
  snapshotsOfActions r.actions

/-- Statuses published by a run, in order. -/
def RunOutput.statusTrace (r : RunOutput) : List VStatus :=
  statusTraceOfActions r.actions

/-- The last status a run published (the component starts at `idle`). -/
def RunOutput.finalStatus (r : RunOutput) : VStatus :=
  r.statusTrace.getLastD .idle

/-- The last step log a run published. -/
def RunOutput.finalSteps (r : RunOutput) : List Step :=
  r.snapshots.getLastD []

/-- The revocation try-block of lines 104-108 up to and including the
`isRevoked` lookup: strip proof, canonicalize, hash, look up. -/
def revLookup (env : Env) (c : Credential) : Except String Bool :=
  match env.canonicalizeVC (stripProof c) with
  | .error e => .error e
  | .ok b =>
    match env.computeCredentialHash b with
    | .error e => .error e
    | .ok h => env.isRevoked h

/-- Final form of the revocation step as a function of the lookup result. -/
def revFinalStep : Except String Bool → Step
  | .error e => revWarnStep e
  | .ok true => revRevokedStep
  | .ok false => revOkStep

/-- Final published status as a function of the revocation lookup result. -/
def revFinalStatus : Except String Bool → VStatus
  | .error _ => .valid
  | .ok true => .revoked
  | .ok false => .valid

/-- Final form of the controller step in a run of `runVerification`. -/
def ctrlStepOf (env : Env) (c : Credential) (sr : SigResult) : Step :=
  controllerStep (env.getController c.issuer) sr.recoveredAddress

/-- One publication evolves into the next by appending a step or by
rewriting the last step in place, keeping its name. -/
def evolves (s t : List Step) : Prop :=
  (∃ x, t = s ++ [x]) ∨ (∃ u x y, s = u ++ [x] ∧ t = u ++ [y] ∧ x.name = y.name)

/-- Every consecutive pair of snapshots is related by `evolves`. -/
def chain : List (List Step) → Prop
  | [] => True
  | [_] => True
  | s :: t :: rest => evolves s t ∧ chain (t :: rest)

/-- The shared React state the published actions mutate. -/
structure Shared where
  status : VStatus
  steps : List Step
  deriving DecidableEq

/-- Effect of one published action on the shared state. -/
def applyAction (s : Shared) : Action → Shared
  | .setStatus st => { s with status := st }
  | .setSteps l => { s with steps := l }

/-- Effect of a sequence of published actions on the shared state. -/
def applyActions (s : Shared) (as : List Action) : Shared :=
  as.foldl applyAction s

/-- The state updates performed by `resetState` (called from
`handleVcInputChange` when the user edits the input). -/
def resetActions : List Action :=
  [.setStatus .idle, .setSteps []]

/-- Characterization of a run whose signature check succeeds with a valid
signature: five snapshots are published, with pending placeholders for the
two network-bound steps, and the status trace ends with the status derived
from the revocation lookup. -/
theorem run_valid_sig_snapshots (env : Env) (c : Credential) (sr : SigResult)
    (hs : env.verifyVCSignature c = .ok sr) (hv : sr.valid = true) :
    (runVerification env (some c)).snapshots
      = [[sigStep sr], [sigStep sr, ctrlPendingStep],
         [sigStep sr, ctrlStepOf env c sr],
         [sigStep sr, ctrlStepOf env c sr, revPendingStep],
         [sigStep sr, ctrlStepOf env c sr, revFinalStep (revLookup env c)]]
    ∧ (runVerification env (some c)).statusTrace
      = [.verifying, revFinalStatus (revLookup env c)] := by
  simp only [runVerification, hs, hv, Bool.not_true, Bool.false_eq_true, if_false]
  cases hc : env.canonicalizeVC (stripProof c) with
  | error e =>
    simp [RunOutput.snapshots, RunOutput.statusTrace, RunOutput.actions,
      snapshotsOfActions, statusTraceOfActions, revLookup, hc, revFinalStep,
      revFinalStatus, ctrlStepOf]
  | ok b =>
    cases hh : env.computeCredentialHash b with
    | error e =>
      simp [RunOutput.snapshots, RunOutput.statusTrace, RunOutput.actions,
        snapshotsOfActions, statusTraceOfActions, revLookup, hc, hh, revFinalStep,
        revFinalStatus, ctrlStepOf]
    | ok h =>
      cases hr : env.isRevoked h with
      | error e =>
        simp [RunOutput.snapshots, RunOutput.statusTrace, RunOutput.actions,
          snapshotsOfActions, statusTraceOfActions, revLookup, hc, hh, hr,
          revFinalStep, revFinalStatus, ctrlStepOf]
      | ok revoked =>
        cases revoked <;>
          simp [RunOutput.snapshots, RunOutput.statusTrace, RunOutput.actions,
            snapshotsOfActions, statusTraceOfActions, revLookup, hc, hh, hr,
            revFinalStep, revFinalStatus, ctrlStepOf]

/-- A signature-verifier result accepting the credential. -/
def validSig : SigResult :=
  ⟨true, "Signature is valid.", some "0xAbC123"⟩

/-- Environment in which every external call succeeds and the credential is
neither revoked nor controlled by a mismatching identity. -/
def envA : Env where
  verifyVCSignature := fun _ => .ok validSig
  canonicalizeVC := fun b => .ok (b.issuer ++ "|" ++ b.subject)
  computeCredentialHash := fun s => .ok ("hash:" ++ s)
  getController := fun _ => .ok "0xABC123"
  isRevoked := fun _ => .ok false

/-- A concrete credential. -/
def credA : Credential :=
  ⟨"did:ethr:0xAbC123", "alice-degree", some "sigA"⟩

/-- A second concrete credential. -/
def credB : Credential :=
  ⟨"did:ethr:0xAbC123", "bob-degree", some "sigB"⟩

/-- Environment whose signature verifier rejects the credential. -/
def envB : Env :=
  { envA with verifyVCSignature := fun _ => .ok ⟨false, "Signature mismatch.", none⟩ }

/-- Environment whose revocation list contains every fingerprint. -/
def envRevokedList : Env :=
  { envA with isRevoked := fun _ => .ok true }

/-- Environment whose canonicalizer throws. -/
def envCanonFail : Env :=
  { envA with canonicalizeVC := fun _ => .error "Unsupported value type" }

/-- Environment whose revocation lookup throws. -/
def envNetFail : Env :=
  { envA with isRevoked := fun _ => .error "network unreachable" }

/-- Environment whose controller resolution throws. -/
def envCtrlFail : Env :=
  { envA with getController := fun _ => .error "DID not registered" }

/-- Environment whose signature verifier itself throws. -/
def envSigThrow : Env :=
  { envA with verifyVCSignature := fun _ => .error "unexpected token in proof" }

/-- C1: when the input parses and the signature verifier returns
`valid: false`, the run ends with status `invalid`, the only published step
log is the single Cryptographic Signature step carrying the verifier's
reason with status `failure`, and neither `getController` nor `isRevoked`
is invoked. -/
theorem sig_invalid_short_circuit (env : Env) (c : Credential) (sr : SigResult)
    (hs : env.verifyVCSignature c = .ok sr) (hv : sr.valid = false) :
    (runVerification env (some c)).finalStatus = .invalid ∧
    (runVerification env (some c)).snapshots
      = [[⟨"Cryptographic Signature", .failure, sr.reason⟩]] ∧
    (runVerification env (some c)).calls = [] := by
  simp [runVerification, hs, hv, sigStep, RunOutput.finalStatus, RunOutput.statusTrace,
    RunOutput.snapshots, RunOutput.actions, snapshotsOfActions, statusTraceOfActions]

/-- Witness for C1 at a concrete environment and credential. -/
theorem sig_invalid_short_circuit_witness :
    (runVerification envB (some credB)).finalStatus = .invalid ∧
    (runVerification envB (some credB)).snapshots
      = [[⟨"Cryptographic Signature", .failure, "Signature mismatch."⟩]] ∧
    (runVerification envB (some credB)).calls = [] :=
  sig_invalid_short_circuit envB credB ⟨false, "Signature mismatch.", none⟩ rfl rfl

/-- C4: when the input is not well-formed JSON, the run ends with status
`error`, the only published step log is the single Parse JSON step, no
external call is made, and nothing escapes uncaught. -/
theorem parse_failure_halts (env : Env) :
    (runVerification env none).finalStatus = .error ∧
    (runVerification env none).snapshots
      = [[⟨"Parse JSON", .failure, "Input is not valid JSON."⟩]] ∧
    (runVerification env none).calls = [] ∧
    (runVerification env none).uncaught = none := by
  simp [runVerification, parseFailStep, RunOutput.finalStatus, RunOutput.statusTrace,
    RunOutput.snapshots, RunOutput.actions, snapshotsOfActions, statusTraceOfActions]

/-- C10: the signature-verifier call is not guarded by any try/catch: if
`verifyVCSignature` throws, the exception escapes the run, no step is ever
published, no external call is made, and the last published status is
`verifying`. -/
theorem sig_throw_escapes (env : Env) (c : Credential) (e : String)
    (hs : env.verifyVCSignature c = .error e) :
    (runVerification env (some c)).uncaught = some e ∧
    (runVerification env (some c)).snapshots = [] ∧
    (runVerification env (some c)).finalStatus = .verifying ∧
    (runVerification env (some c)).calls = [] := by
  simp [runVerification, hs, RunOutput.finalStatus, RunOutput.statusTrace,
    RunOutput.snapshots, RunOutput.actions, snapshotsOfActions, statusTraceOfActions]

/-- Witness for C10 at a concrete environment and credential. -/
theorem sig_throw_escapes_witness :
    (runVerification envSigThrow (some credA)).uncaught = some "unexpected token in proof" ∧
    (runVerification envSigThrow (some credA)).snapshots = [] ∧
    (runVerification envSigThrow (some credA)).finalStatus = .verifying ∧
    (runVerification envSigThrow (some credA)).calls = [] :=
  sig_throw_escapes envSigThrow credA "unexpected token in proof" rfl

/-- C2: with a valid signature, if the revocation lookup reports the
fingerprint revoked, the run ends with status `revoked` whatever the
controller check produced (the environment, hence the controller result, is
universally quantified), and the final published step is the Revocation
Status step with status `failure` and a message containing "revoked". -/
theorem revoked_short_circuit (env : Env) (c : Credential) (sr : SigResult)
    (b h : String)
    (hs : env.verifyVCSignature c = .ok sr) (hv : sr.valid = true)
    (hcanon : env.canonicalizeVC (stripProof c) = .ok b)
    (hhash : env.computeCredentialHash b = .ok h)
    (hrev : env.isRevoked h = .ok true) :
    (runVerification env (some c)).finalStatus = .revoked ∧
    (runVerification env (some c)).finalSteps.getLast?
      = some ⟨"Revocation Status", .failure, "This credential has been revoked by the issuer."⟩ ∧
    (∃ p s, ("This credential has been revoked by the issuer." : String)
      = p ++ "revoked" ++ s) := by
  have hlook : revLookup env c = .ok true := by
    simp [revLookup, hcanon, hhash, hrev]
  obtain ⟨hsnap, htrace⟩ := run_valid_sig_snapshots env c sr hs hv
  refine ⟨?_, ?_, ⟨"This credential has been ", " by the issuer.", by rfl⟩⟩
  · simp [RunOutput.finalStatus, htrace, hlook, revFinalStatus]
  · simp [RunOutput.finalSteps, hsnap, hlook, revFinalStep, revRevokedStep]

/-- Witness for C2 at a concrete environment and credential. -/
theorem revoked_short_circuit_witness :
    (runVerification envRevokedList (some credA)).finalStatus = .revoked ∧
    (runVerification envRevokedList (some credA)).finalSteps.getLast?
      = some ⟨"Revocation Status", .failure, "This credential has been revoked by the issuer."⟩ ∧
    (∃ p s, ("This credential has been revoked by the issuer." : String)
      = p ++ "revoked" ++ s) :=
  revoked_short_circuit envRevokedList credA validSig
    "did:ethr:0xAbC123|alice-degree" "hash:did:ethr:0xAbC123|alice-degree"
    rfl rfl rfl rfl rfl

/-- C3: with a valid signature, whenever the revocation lookup does not
report the fingerprint revoked — it returns `false` or any stage of it
throws — the run ends with status `valid`, no matter what the controller
check produced; a revocation-lookup failure yields only a warning step, a
controller-resolution failure yields only a warning step, and a controller
mismatch (resolution succeeded but the identity does not match the
recovered signer after lowercasing) also yields only a warning step. -/
theorem advisory_conditions_keep_valid (env : Env) (c : Credential) (sr : SigResult)
    (hs : env.verifyVCSignature c = .ok sr) (hv : sr.valid = true)
    (hnr : revLookup env c = .ok false ∨ ∃ e, revLookup env c = .error e) :
    (runVerification env (some c)).finalStatus = .valid ∧
    (∀ e, revLookup env c = .error e →
      (runVerification env (some c)).finalSteps.getLast? = some (revWarnStep e)) ∧
    (∀ e, env.getController c.issuer = .error e →
      (runVerification env (some c)).finalSteps[1]? = some ctrlFailStep) ∧
    (∀ ctrl, env.getController c.issuer = .ok ctrl →
      (¬ ∃ s, sr.recoveredAddress = some s ∧ ctrl.toLower = s.toLower) →
      ∃ st, (runVerification env (some c)).finalSteps[1]? = some st ∧
        st.status = .warning) := by
  obtain ⟨hsnap, htrace⟩ := run_valid_sig_snapshots env c sr hs hv
  refine ⟨?_, ?_, ?_, ?_⟩
  · rcases hnr with h | ⟨e, h⟩ <;>
      simp [RunOutput.finalStatus, htrace, h, revFinalStatus]
  · intro e he
    simp [RunOutput.finalSteps, hsnap, he, revFinalStep]
  · intro e he
    simp [RunOutput.finalSteps, hsnap, ctrlStepOf, controllerStep, he]
  · intro ctrl hok hmis
    refine ⟨ctrlStepOf env c sr, by simp [RunOutput.finalSteps, hsnap], ?_⟩
    unfold ctrlStepOf controllerStep
    rw [hok]
    cases hrec : sr.recoveredAddress with
    | none => simp [ctrlMismatchStep]
    | some s =>
      have hlow : ¬ ctrl.toLower = s.toLower := fun h => hmis ⟨s, hrec, h⟩
      simp [hlow, ctrlMismatchStep]

/-- Witness for C3 at a concrete environment and credential, with a failing
controller resolution and a failing revocation lookup. -/
theorem advisory_conditions_keep_valid_witness :
    (runVerification { envCtrlFail with isRevoked := fun _ => .error "network unreachable" }
      (some credA)).finalStatus = .valid ∧
    (∀ e, revLookup { envCtrlFail with isRevoked := fun _ => .error "network unreachable" }
        credA = .error e →
      (runVerification { envCtrlFail with isRevoked := fun _ => .error "network unreachable" }
        (some credA)).finalSteps.getLast? = some (revWarnStep e)) ∧
    (∀ e, ({ envCtrlFail with isRevoked := fun _ => .error "network unreachable" }
        : Env).getController credA.issuer = .error e →
      (runVerification { envCtrlFail with isRevoked := fun _ => .error "network unreachable" }
        (some credA)).finalSteps[1]? = some ctrlFailStep) ∧
    (∀ ctrl, ({ envCtrlFail with isRevoked := fun _ => .error "network unreachable" }
        : Env).getController credA.issuer = .ok ctrl →
      (¬ ∃ s, validSig.recoveredAddress = some s ∧ ctrl.toLower = s.toLower) →
      ∃ st, (runVerification { envCtrlFail with isRevoked := fun _ => .error "network unreachable" }
        (some credA)).finalSteps[1]? = some st ∧ st.status = .warning) :=
  advisory_conditions_keep_valid
    { envCtrlFail with isRevoked := fun _ => .error "network unreachable" }
    credA validSig rfl rfl (Or.inr ⟨"network unreachable", rfl⟩)

/-- The controller step is always named Issuer DID Control. -/
theorem controllerStep_name (r : Except String String) (rec : Option String) :
    (controllerStep r rec).name = "Issuer DID Control" := by
  unfold controllerStep
  cases r with
  | error e => rfl
  | ok oc =>
    cases rec with
    | none => rfl
    | some s =>
      by_cases h : oc.toLower = s.toLower <;>
        simp [h, ctrlMatchStep, ctrlMismatchStep]

/-- The controller step always resolves to success or warning. -/
theorem controllerStep_status (r : Except String String) (rec : Option String) :
    (controllerStep r rec).status = .success ∨ (controllerStep r rec).status = .warning := by
  unfold controllerStep
  cases r with
  | error e => exact Or.inr rfl
  | ok oc =>
    cases rec with
    | none => exact Or.inr rfl
    | some s =>
      by_cases h : oc.toLower = s.toLower <;>
        simp [h, ctrlMatchStep, ctrlMismatchStep]

/-- The final revocation step is always named Revocation Status. -/
theorem revFinalStep_name (x : Except String Bool) :
    (revFinalStep x).name = "Revocation Status" := by
  cases x with
  | error e => rfl
  | ok b => cases b <;> rfl

/-- The final revocation step is never left pending. -/
theorem revFinalStep_not_pending (x : Except String Bool) :
    (revFinalStep x).status ≠ .pending := by
  cases x with
  | error e => simp [revFinalStep, revWarnStep]
  | ok b => cases b <;> simp [revFinalStep, revOkStep, revRevokedStep]

/-- C5: whenever the run reaches the revocation lookup, the fingerprint it
passes to `isRevoked` is exactly the hash of the canonicalization of the
proof-stripped credential, computed in that order; the call trace is
exactly the controller resolution followed by that one lookup. -/
theorem revocation_fingerprint (env : Env) (c : Credential) (sr : SigResult) (b h : String)
    (hs : env.verifyVCSignature c = .ok sr) (hv : sr.valid = true)
    (hcanon : env.canonicalizeVC (stripProof c) = .ok b)
    (hhash : env.computeCredentialHash b = .ok h) :
    (runVerification env (some c)).calls
      = [.getControllerCall c.issuer, .isRevokedCall h] := by
  simp only [runVerification, hs, hv, Bool.not_true, Bool.false_eq_true, if_false,
    hcanon, hhash]
  cases hr : env.isRevoked h with
  | error e => rfl
  | ok revoked => cases revoked <;> rfl

/-- Witness for C5 at a concrete environment and credential. -/
theorem revocation_fingerprint_witness :
    (runVerification envA (some credA)).calls
      = [.getControllerCall "did:ethr:0xAbC123",
         .isRevokedCall "hash:did:ethr:0xAbC123|alice-degree"] :=
  revocation_fingerprint envA credA validSig
    "did:ethr:0xAbC123|alice-degree" "hash:did:ethr:0xAbC123|alice-degree"
    rfl rfl rfl rfl

/-- C6: when controller resolution succeeds, the Issuer DID Control step is
`success` exactly when the resolved controller equals the recovered signer
under lowercase comparison, and `warning` otherwise; and replacing the
controller oracle by any other never changes the final status. -/
theorem controller_check_advisory (env : Env) (c : Credential) (sr : SigResult) (ctrl : String)
    (hs : env.verifyVCSignature c = .ok sr) (hv : sr.valid = true)
    (hg : env.getController c.issuer = .ok ctrl) :
    (∃ st, (runVerification env (some c)).finalSteps[1]? = some st ∧
      (st.status = .success ↔ ∃ s, sr.recoveredAddress = some s ∧ ctrl.toLower = s.toLower) ∧
      (st.status = .success ∨ st.status = .warning)) ∧
    (∀ g g', (runVerification { env with getController := g } (some c)).finalStatus
           = (runVerification { env with getController := g' } (some c)).finalStatus) := by
  obtain ⟨hsnap, htrace⟩ := run_valid_sig_snapshots env c sr hs hv
  constructor
  · refine ⟨ctrlStepOf env c sr, ?_, ?_, controllerStep_status _ _⟩
    · simp [RunOutput.finalSteps, hsnap]
    · unfold ctrlStepOf controllerStep
      rw [hg]
      cases hrec : sr.recoveredAddress with
      | none => simp [ctrlMismatchStep]
      | some s =>
        by_cases hlow : ctrl.toLower = s.toLower <;>
          simp [hlow, ctrlMatchStep, ctrlMismatchStep]
  · intro g g'
    obtain ⟨_, ht1⟩ := run_valid_sig_snapshots { env with getController := g } c sr hs hv
    obtain ⟨_, ht2⟩ := run_valid_sig_snapshots { env with getController := g' } c sr hs hv
    have hrl : revLookup { env with getController := g } c
        = revLookup { env with getController := g' } c := rfl
    simp [RunOutput.finalStatus, ht1, ht2, hrl]

/-- Witness for C6 at a concrete environment and credential. -/
theorem controller_check_advisory_witness :
    (∃ st, (runVerification envA (some credA)).finalSteps[1]? = some st ∧
      (st.status = .success ↔
        ∃ s, validSig.recoveredAddress = some s ∧ ("0xABC123" : String).toLower = s.toLower) ∧
      (st.status = .success ∨ st.status = .warning)) ∧
    (∀ g g', (runVerification { envA with getController := g } (some credA)).finalStatus
           = (runVerification { envA with getController := g' } (some credA)).finalStatus) :=
  controller_check_advisory envA credA validSig "0xABC123" rfl rfl rfl

/-- Every run, whatever its path, publishes a chain of snapshots: each next
snapshot appends a step or rewrites the last step in place under the same
name. -/
theorem chain_snapshots (env : Env) (pr : Option Credential) :
    chain (runVerification env pr).snapshots := by
  match pr with
  | none =>
    simp [runVerification, RunOutput.snapshots, RunOutput.actions, snapshotsOfActions, chain]
  | some c =>
    cases hs : env.verifyVCSignature c with
    | error e =>
      simp [runVerification, hs, RunOutput.snapshots, RunOutput.actions,
        snapshotsOfActions, chain]
    | ok sr =>
      cases hv : sr.valid with
      | false =>
        simp [runVerification, hs, hv, RunOutput.snapshots, RunOutput.actions,
          snapshotsOfActions, chain]
      | true =>
        obtain ⟨hsnap, _⟩ := run_valid_sig_snapshots env c sr hs hv
        rw [hsnap]
        simp only [chain]
        refine ⟨Or.inl ⟨ctrlPendingStep, rfl⟩,
          Or.inr ⟨[sigStep sr], ctrlPendingStep, ctrlStepOf env c sr, rfl, rfl, ?_⟩,
          Or.inl ⟨revPendingStep, rfl⟩,
          Or.inr ⟨[sigStep sr, ctrlStepOf env c sr], revPendingStep,
            revFinalStep (revLookup env c), rfl, rfl, ?_⟩, trivial⟩
        · simp [ctrlPendingStep, ctrlStepOf, controllerStep_name]
        · simp [revPendingStep, revFinalStep_name]

/-- C7: the published snapshots of every run form a chain in which the step
log only ever grows by appending a step or rewriting the last step in place
under the same name; in a signature-valid run the step names appear in the
fixed execution order and each network-bound step is first published as a
pending placeholder and later finalized in place. -/
theorem step_log_append_only (env : Env) (c : Credential) (sr : SigResult)
    (hs : env.verifyVCSignature c = .ok sr) (hv : sr.valid = true) :
    (∀ (env' : Env) (pr : Option Credential), chain (runVerification env' pr).snapshots) ∧
    (runVerification env (some c)).snapshots.map (fun l => l.map Step.name)
      = [["Cryptographic Signature"],
         ["Cryptographic Signature", "Issuer DID Control"],
         ["Cryptographic Signature", "Issuer DID Control"],
         ["Cryptographic Signature", "Issuer DID Control", "Revocation Status"],
         ["Cryptographic Signature", "Issuer DID Control", "Revocation Status"]] ∧
    ((runVerification env (some c)).snapshots.getD 1 []).getLast? = some ctrlPendingStep ∧
    (∃ st, ((runVerification env (some c)).snapshots.getD 2 []).getLast? = some st ∧
      st.name = "Issuer DID Control" ∧ st.status ≠ .pending) ∧
    ((runVerification env (some c)).snapshots.getD 3 []).getLast? = some revPendingStep ∧
    (∃ st, ((runVerification env (some c)).snapshots.getD 4 []).getLast? = some st ∧
      st.name = "Revocation Status" ∧ st.status ≠ .pending) := by
  obtain ⟨hsnap, htrace⟩ := run_valid_sig_snapshots env c sr hs hv
  rw [hsnap]
  refine ⟨fun env' pr => chain_snapshots env' pr, ?_, ?_, ?_, ?_, ?_⟩
  · simp [sigStep, ctrlPendingStep, revPendingStep, ctrlStepOf,
      controllerStep_name, revFinalStep_name]
  · simp
  · exact ⟨ctrlStepOf env c sr, by simp,
      controllerStep_name _ _, by
        rcases controllerStep_status (env.getController c.issuer) sr.recoveredAddress with
          h | h <;> simp [ctrlStepOf, h]⟩
  · simp
  · exact ⟨revFinalStep (revLookup env c), by simp,
      revFinalStep_name _, revFinalStep_not_pending _⟩

/-- Witness for C7 at a concrete environment and credential. -/
theorem step_log_append_only_witness :
    (∀ (env' : Env) (pr : Option Credential), chain (runVerification env' pr).snapshots) ∧
    (runVerification envA (some credA)).snapshots.map (fun l => l.map Step.name)
      = [["Cryptographic Signature"],
         ["Cryptographic Signature", "Issuer DID Control"],
         ["Cryptographic Signature", "Issuer DID Control"],
         ["Cryptographic Signature", "Issuer DID Control", "Revocation Status"],
         ["Cryptographic Signature", "Issuer DID Control", "Revocation Status"]] ∧
    ((runVerification envA (some credA)).snapshots.getD 1 []).getLast? = some ctrlPendingStep ∧
    (∃ st, ((runVerification envA (some credA)).snapshots.getD 2 []).getLast? = some st ∧
      st.name = "Issuer DID Control" ∧ st.status ≠ .pending) ∧
    ((runVerification envA (some credA)).snapshots.getD 3 []).getLast? = some revPendingStep ∧
    (∃ st, ((runVerification envA (some credA)).snapshots.getD 4 []).getLast? = some st ∧
      st.name = "Revocation Status" ∧ st.status ≠ .pending) :=
  step_log_append_only envA credA validSig rfl rfl

/-- C9: with a valid signature, an exception thrown by canonicalization or
hashing is caught inside the revocation try-block and recorded as the same
warning step a registry network fault would produce; the run still ends
with status `valid` and `isRevoked` is never called. -/
theorem canonicalization_error_downgraded (env : Env) (c : Credential) (sr : SigResult)
    (e : String)
    (hs : env.verifyVCSignature c = .ok sr) (hv : sr.valid = true)
    (hfail : env.canonicalizeVC (stripProof c) = .error e
      ∨ ∃ b, env.canonicalizeVC (stripProof c) = .ok b
          ∧ env.computeCredentialHash b = .error e) :
    (runVerification env (some c)).finalStatus = .valid ∧
    (runVerification env (some c)).finalSteps.getLast? = some (revWarnStep e) ∧
    ∀ h, CallEvent.isRevokedCall h ∉ (runVerification env (some c)).calls := by
  have hlook : revLookup env c = .error e := by
    rcases hfail with hc | ⟨b, hb, hh⟩ <;> simp [revLookup, *]
  obtain ⟨hsnap, htrace⟩ := run_valid_sig_snapshots env c sr hs hv
  refine ⟨?_, ?_, ?_⟩
  · simp [RunOutput.finalStatus, htrace, hlook, revFinalStatus]
  · simp [RunOutput.finalSteps, hsnap, hlook, revFinalStep]
  · intro h
    rcases hfail with hc | ⟨b, hb, hh⟩ <;>
      simp [runVerification, hs, hv, *]

/-- Witness for C9 at a concrete environment and credential. -/
theorem canonicalization_error_downgraded_witness :
    (runVerification envCanonFail (some credA)).finalStatus = .valid ∧
    (runVerification envCanonFail (some credA)).finalSteps.getLast?
      = some (revWarnStep "Unsupported value type") ∧
    ∀ h, CallEvent.isRevokedCall h ∉ (runVerification envCanonFail (some credA)).calls :=
  canonicalization_error_downgraded envCanonFail credA validSig
    "Unsupported value type" rfl rfl (Or.inl rfl)

/-- C8 fails on the code: run A over `envCtrlFail`/`credA` suspends at the
`getController` await; the user edits the input (firing `resetState`) and a
fresh run B over `envB`/`credB` starts and completes with status `invalid`;
then run A resumes and its remaining segments are applied unconditionally.
The final shared state carries the abandoned run A's outcome `valid` and
its step log, even though run B finished after run A was superseded — no
stale-result suppression exists. -/
theorem stale_run_results_applied :
    applyActions ⟨.idle, []⟩
      (((runVerification envCtrlFail (some credA)).segments.getD 0 []) ++ resetActions
        ++ (runVerification envB (some credB)).actions
        ++ ((runVerification envCtrlFail (some credA)).segments.getD 1 [])
        ++ ((runVerification envCtrlFail (some credA)).segments.getD 2 []))
      = ⟨.valid, [sigStep validSig, ctrlFailStep, revOkStep]⟩ ∧
    (runVerification envB (some credB)).finalStatus = .invalid := by
  constructor
  · rfl
  · rfl

end AcademicChain
